import Mathlib

/-!
Verification development for the ScamNest conversational fraud-triage engine.

The Python sources are shallowly embedded in Lean 4:
- floating-point scores are modelled as rationals (the arithmetic involved is
  exact decimal arithmetic: sums, products by constant weights, min/max and
  threshold comparisons, none of which is sensitive to binary rounding);
- the regex layer (`re.compile` / `search` / `findall`) is abstracted: a
  message enters the model as the per-family count of distinct matching
  patterns together with the list of matched keyword strings, exactly the data
  `_count_pattern_matches` and `_extract_matched_keywords` produce;
- the Python try/except around the ML classifier call is modelled as an
  `Except` value: `.ok p` is a successful `predict_proba` result, `.error e`
  is any raised exception;
- Python `set`s are modelled as `Finset String`, `list(set(xs))` as
  `List.dedup`.

Components whose source file is absent from the repository snapshot
(`app/services/risk_aggregator.py`, `app/services/intent_scorer.py`,
`app/models/schemas.py`) are modelled from the specification text; each such
definition carries a doc comment starting with "Modelled from the spec:".
-/

namespace ScamNest

/-! ## ScamDetector (app/services/scam_detector_hybrid.py)

Per-family per-match weights and caps, read off the literals in
`ScamDetector.analyze_message` (lines 330-376). -/

def urgencyWeight : ℚ := 1/20
def urgencyCap : ℚ := 3/20
def threatWeight : ℚ := 2/25
def threatCap : ℚ := 1/4
def requestWeight : ℚ := 1/20
def requestCap : ℚ := 3/20
def sensitiveWeight : ℚ := 2/25
def sensitiveCap : ℚ := 1/4
def impersonationWeight : ℚ := 1/20
def impersonationCap : ℚ := 1/10
def moneyWeight : ℚ := 1/20
def moneyCap : ℚ := 1/10
def upiScamWeight : ℚ := 1/10
def upiScamCap : ℚ := 1/5
def financialCoercionWeight : ℚ := 1/10
def financialCoercionCap : ℚ := 1/5

/-- Result of running the eight compiled pattern families over one message
text: for each family, the number of distinct patterns that matched
(`_count_pattern_matches`) and the matched keyword strings
(`_extract_matched_keywords`, already deduplicated per family). -/
structure RuleMatches where
  urgencyCount : ℕ := 0
  threatCount : ℕ := 0
  requestCount : ℕ := 0
  sensitiveCount : ℕ := 0
  impersonationCount : ℕ := 0
  moneyCount : ℕ := 0
  upiScamCount : ℕ := 0
  financialCoercionCount : ℕ := 0
  urgencyKeywords : List String := []
  threatKeywords : List String := []
  requestKeywords : List String := []
  sensitiveKeywords : List String := []
  impersonationKeywords : List String := []
  moneyKeywords : List String := []
  upiScamKeywords : List String := []
  financialCoercionKeywords : List String := []

/-- Contribution of one pattern family to the rule score: the body of each
`if <family>_count > 0: rule_score += min(count * weight, cap)` block. -/
def famScore (count : ℕ) (w cap : ℚ) : ℚ :=
  if 0 < count then min ((count : ℚ) * w) cap else 0

/-- The `rule_score` accumulator of `ScamDetector.analyze_message` after all
eight family blocks have run. -/
def ruleScore (m : RuleMatches) : ℚ :=
  famScore m.urgencyCount urgencyWeight urgencyCap +
  famScore m.threatCount threatWeight threatCap +
  famScore m.requestCount requestWeight requestCap +
  famScore m.sensitiveCount sensitiveWeight sensitiveCap +
  famScore m.impersonationCount impersonationWeight impersonationCap +
  famScore m.moneyCount moneyWeight moneyCap +
  famScore m.upiScamCount upiScamWeight upiScamCap +
  famScore m.financialCoercionCount financialCoercionWeight financialCoercionCap

/-- Keywords a family contributes to the `keywords` accumulator: the
`keywords.extend(...)` call guarded by `if <family>_count > 0`. -/
def famKeywords (count : ℕ) (ks : List String) : List String :=
  if 0 < count then ks else []

/-- The `keywords` accumulator of `ScamDetector.analyze_message` after all
eight family blocks have run (before the final `list(set(keywords))`). -/
def matchedKeywordList (m : RuleMatches) : List String :=
  famKeywords m.urgencyCount m.urgencyKeywords ++
  famKeywords m.threatCount m.threatKeywords ++
  famKeywords m.requestCount m.requestKeywords ++
  famKeywords m.sensitiveCount m.sensitiveKeywords ++
  famKeywords m.impersonationCount m.impersonationKeywords ++
  famKeywords m.moneyCount m.moneyKeywords ++
  famKeywords m.upiScamCount m.upiScamKeywords ++
  famKeywords m.financialCoercionCount m.financialCoercionKeywords

/-- The `ml_score` variable: initialised to `0.0`, overwritten by
`predict_proba` on success, left at `0.0` when the try block raises. -/
def mlScoreOf (r : Except String ℚ) : ℚ :=
  match r with
  | .ok p => p
  | .error _ => 0

/-- Embedding of `ScamDetector.analyze_message`: returns
`(min(max(rule_score, ml_score), 1.0), list(set(keywords)))`. -/
def analyzeMessage (m : RuleMatches) (ml : Except String ℚ) : ℚ × List String :=
  (min (max (ruleScore m) (mlScoreOf ml)) 1, (matchedKeywordList m).dedup)

/-! ## ScamDetector.analyze_session (app/services/scam_detector_hybrid.py, lines 396-425) -/

/-- One message of a session as the detector sees it: the sender role string
plus the abstracted pattern-match data and ML outcome for its text. -/
structure SessionMessage where
  sender : String
  ruleData : RuleMatches
  ml : Except String ℚ

/-- Embedding of Python `str.lower()`: lowercase every character. -/
def lowerStr (s : String) : String := String.mk (s.data.map Char.toLower)

/-- The messages the session loop actually analyzes: those with
`msg.sender.lower() == "scammer"`. -/
def scammerMessages (msgs : List SessionMessage) : List SessionMessage :=
  msgs.filter (fun m => lowerStr m.sender == "scammer")

/-- Score of one message inside the session loop (`analyze_message` result). -/
def msgScore (m : SessionMessage) : ℚ := (analyzeMessage m.ruleData m.ml).1

/-- Keywords of one message inside the session loop. -/
def msgKeywords (m : SessionMessage) : List String := (analyzeMessage m.ruleData m.ml).2

/-- Embedding of `ScamDetector.analyze_session`: returns
`(final_score, is_suspected, is_confirmed, list(set(all_keywords)))`. -/
def analyzeSession (msgs : List SessionMessage) : ℚ × Bool × Bool × List String :=
  let scam := scammerMessages msgs
  let totalScore := (scam.map msgScore).sum
  let allKeywords := (scam.map msgKeywords).flatten
  let messageCount := scam.length
  let avgScore := totalScore / ((max messageCount 1 : ℕ) : ℚ)
  let diversityBonus := min ((allKeywords.dedup.length : ℚ) * (1/50)) (1/5)
  let finalScore := min (avgScore + diversityBonus) 1
  (finalScore, decide (3/10 ≤ finalScore),
    decide (51/100 ≤ finalScore ∧ 2 ≤ messageCount), allKeywords.dedup)

/-! ## IntelligenceExtractor (app/services/intelligence_extractor.py) -/

/-- Embedding of `re.sub(r'[-\s]', '', match)`: drop separator characters,
keep the rest, as a character list. -/
def stripSeparators (s : String) : List Char :=
  s.data.filter (fun c => !(c == '-' || c.isWhitespace))

/-- Validation test of `_filter_bank_accounts`:
`9 <= len(clean) <= 18 and clean.isdigit()`. -/
def validAccountChars (clean : List Char) : Bool :=
  decide (9 ≤ clean.length) && decide (clean.length ≤ 18) && clean.all Char.isDigit

/-- Masking step of `_filter_bank_accounts`: the f-string
`f"XXXX-XXXX-{clean[-4:]}"`. -/
def maskAccount (clean : List Char) : String :=
  String.mk ("XXXX-XXXX-".data ++ clean.drop (clean.length - 4))

/-- Loop of `_filter_bank_accounts`: walk the raw matches, keep the masked
form of each valid candidate, appending only if not already present. -/
def filterBankAccountsLoop (acc : List String) : List String → List String
  | [] => acc
  | m :: ms =>
      let clean := stripSeparators m
      if validAccountChars clean then
        let masked := maskAccount clean
        filterBankAccountsLoop (if masked ∈ acc then acc else acc ++ [masked]) ms
      else
        filterBankAccountsLoop acc ms

/-- Embedding of `IntelligenceExtractor._filter_bank_accounts`. -/
def filter_bank_accounts (ms : List String) : List String :=
  filterBankAccountsLoop [] ms

/-! ## ExtractedIntelligence and SessionState

The model file `app/models/schemas.py` is absent from the repository
snapshot; only its importers are present. The artifact container and its two
methods used by the services are therefore modelled from the specification. -/

/-- Modelled from the spec: `ExtractedIntelligence` of `app/models/schemas.py`
(absent from src); ":set of normalized strings" per artifact family (spec
section 3), here a `Finset String` per family. -/
structure ExtractedIntelligence where
  bankAccounts : Finset String := ∅
  upiIds : Finset String := ∅
  phoneNumbers : Finset String := ∅
  phishingLinks : Finset String := ∅
  suspiciousKeywords : Finset String := ∅
deriving DecidableEq

/-- Modelled from the spec: `ExtractedIntelligence.merge` of
`app/models/schemas.py` (absent from src); "merges per-message results into
the session's running ExtractedIntelligence via set union" (spec 4.5). -/
def ExtractedIntelligence.merge (a b : ExtractedIntelligence) : ExtractedIntelligence where
  bankAccounts := a.bankAccounts ∪ b.bankAccounts
  upiIds := a.upiIds ∪ b.upiIds
  phoneNumbers := a.phoneNumbers ∪ b.phoneNumbers
  phishingLinks := a.phishingLinks ∪ b.phishingLinks
  suspiciousKeywords := a.suspiciousKeywords ∪ b.suspiciousKeywords

/-- Modelled from the spec: `ExtractedIntelligence.is_empty` of
`app/models/schemas.py` (absent from src); true when no artifact of any
family has been extracted ("if extracted intelligence is empty", spec 6). -/
def ExtractedIntelligence.is_empty (a : ExtractedIntelligence) : Bool :=
  decide (a.bankAccounts = ∅) && decide (a.upiIds = ∅) &&
    decide (a.phoneNumbers = ∅) && decide (a.phishingLinks = ∅) &&
    decide (a.suspiciousKeywords = ∅)

/-- Session state fields read and written by the services under proof
(`SessionState` of `app/models/schemas.py`; field set per spec section 3 and
the accesses in `session_service.py` / `callback_service.py`). -/
structure SessionState where
  scamSuspected : Bool := false
  scamDetected : Bool := false
  scamConfidenceScore : ℚ := 0
  callbackSent : Bool := false
  totalMessages : ℕ := 0
  extractedIntelligence : ExtractedIntelligence := {}

/-- Embedding of `SessionService.update_scam_status` (session found case):
or-accumulates the two flags and max-accumulates the confidence. -/
def update_scam_status (s : SessionState) (suspected detected : Bool)
    (confidence : ℚ) : SessionState :=
  { s with
    scamSuspected := suspected || s.scamSuspected
    scamDetected := detected || s.scamDetected
    scamConfidenceScore := max confidence s.scamConfidenceScore }

/-- Embedding of `SessionService.update_intelligence` (session found case);
the `updatedAt` timestamp write of `update_session` is not modelled. -/
def update_intelligence (s : SessionState) (intel : ExtractedIntelligence) :
    SessionState :=
  { s with extractedIntelligence := s.extractedIntelligence.merge intel }

/-! ## CallbackService (app/services/callback_service.py) -/

/-- Settings fields consumed by `should_send_callback`
(`app/config.py`, default `min_messages_for_callback: int = 3`). -/
structure Settings where
  min_messages_for_callback : ℕ := 3

/-- Embedding of `CallbackService.should_send_callback`. -/
def should_send_callback (settings : Settings) (s : SessionState) : Bool :=
  if s.callbackSent then false
  else if !s.scamDetected then false
  else if s.totalMessages < settings.min_messages_for_callback then false
  else if s.extractedIntelligence.is_empty then
    if s.scamConfidenceScore < 4/5 then false else true
  else true

/-! ## Risk Aggregator (app/services/risk_aggregator.py, absent from src)

The aggregator's source file is not in the repository snapshot; only its
tests (`src/tests/test_enhanced_detection.py`) and the spec describe it. The
definitions below are modelled from spec section 4.4. -/

/-- Modelled from the spec: the `ConfidenceLevel` enum of
`app/services/risk_aggregator.py` (absent from src). -/
inductive ConfidenceLevel where
  | high
  | medium
  | low
deriving DecidableEq

/-- Modelled from the spec: the `RiskLevel` enum of
`app/services/risk_aggregator.py` (absent from src); ordered terminal
classification SAFE / SUSPICIOUS / SCAM. -/
inductive RiskLevel where
  | safe
  | suspicious
  | scam
deriving DecidableEq

/-- Externally supplied classifier prediction `{label, confidence}`. -/
structure ClassifierPrediction where
  label : String
  confidence : ℚ

/-- Modelled from the spec: confidence-to-level mapping of the risk
aggregator (absent from src): "confidence ≥ 0.75 → HIGH, 0.45–0.75 →
MEDIUM, < 0.45 → LOW". -/
def confidence_level (c : ℚ) : ConfidenceLevel :=
  if 3/4 ≤ c then .high
  else if 9/20 ≤ c then .medium
  else .low

/-- Weights assigned to the three signals for one message. -/
structure SignalWeights where
  ml : ℚ
  rules : ℚ
  intent : ℚ

/-- Modelled from the spec: the confidence-level-to-weights table of the risk
aggregator (absent from src): HIGH gives the classifier the dominant weight
(≥ 0.8), LOW inverts this (rules ≥ 0.3, intent ≥ 0.25), MEDIUM is an
intermediate blend. -/
def weightsFor : ConfidenceLevel → SignalWeights
  | .high => ⟨4/5, 3/25, 2/25⟩
  | .medium => ⟨1/2, 3/10, 1/5⟩
  | .low => ⟨1/5, 9/20, 7/20⟩

/-- Clip a score to the unit interval. -/
def clip01 (x : ℚ) : ℚ := min (max x 0) 1

/-- Modelled from the spec: aggregate score of the risk aggregator (absent
from src), "weighted sum of the three signal scores using the assigned
weights ... clipped to [0,1]". -/
def aggregate_score (w : SignalWeights) (ml rules intent : ℚ) : ℚ :=
  clip01 (w.ml * ml + w.rules * rules + w.intent * intent)

/-- Modelled from the spec: score-to-RiskLevel thresholds of the risk
aggregator (absent from src): "score < 0.35 → SAFE; 0.35 ≤ score < 0.6 →
SUSPICIOUS; score ≥ 0.6 → SCAM". -/
def risk_level (score : ℚ) : RiskLevel :=
  if score < 7/20 then .safe
  else if score < 3/5 then .suspicious
  else .scam

/-- One signal's reported result inside the explanation. -/
structure SignalResult where
  score : ℚ
  weight : ℚ
  weighted_contribution : ℚ

/-- Explanation attached to every aggregator verdict. -/
structure Explanation where
  mlSignal : SignalResult
  rulesSignal : SignalResult
  intentSignal : SignalResult
  confidence_level : ConfidenceLevel

/-- Modelled from the spec: `RiskAggregator.analyze_message` (absent from
src) with an externally supplied classifier prediction: the prediction's
confidence is used as the classifier signal score, its magnitude picks the
`ConfidenceLevel`, the level picks the weights, the aggregate score is the
clipped weighted sum, and the ordered thresholds give the `RiskLevel`. -/
def RiskAggregator.analyze_message (rules intent : ℚ)
    (pred : ClassifierPrediction) : RiskLevel × ℚ × Explanation :=
  let lvl := confidence_level pred.confidence
  let w := weightsFor lvl
  let score := aggregate_score w pred.confidence rules intent
  (risk_level score, score,
    { mlSignal := ⟨pred.confidence, w.ml, w.ml * pred.confidence⟩
      rulesSignal := ⟨rules, w.rules, w.rules * rules⟩
      intentSignal := ⟨intent, w.intent, w.intent * intent⟩
      confidence_level := lvl })

/-! ## Intent Scorer (app/services/intent_scorer.py, absent from src)

The intent scorer's source file is not in the repository snapshot; the
definitions below are modelled from spec sections 4.2 and 8 and the
observable shape used in `src/tests/test_enhanced_detection.py`
(`calculate_intent_score` returning a score and a details structure with
`pattern_counts` and `components` including `combination_bonus`). -/

/-- Modelled from the spec: per-category distinct-pattern match counts of the
intent scorer (absent from src) for the categories urgency, coercion,
financial-entity and UPI-scam. -/
structure IntentCounts where
  urgency : ℕ := 0
  coercion : ℕ := 0
  financial : ℕ := 0
  upi_scam : ℕ := 0

/-- Modelled from the spec: one category's component score in the intent
scorer (absent from src): bounded, increasing in the match count, positive
as soon as the category fires. -/
def intent_component (n : ℕ) : ℚ := min ((n : ℚ) * (1/10)) (3/10)

/-- Number of categories that fire in the message. -/
def activeCategories (c : IntentCounts) : ℕ :=
  (if 0 < c.urgency then 1 else 0) + (if 0 < c.coercion then 1 else 0) +
    (if 0 < c.financial then 1 else 0) + (if 0 < c.upi_scam then 1 else 0)

/-- Modelled from the spec: the combination bonus of the intent scorer
(absent from src), "a combination bonus when two or more categories fire
together in the same message". -/
def combination_bonus (c : IntentCounts) : ℚ :=
  if 2 ≤ activeCategories c then ((activeCategories c - 1 : ℕ) : ℚ) * (1/10)
  else 0

/-- Component contributions exposed in the details structure. -/
structure IntentComponents where
  urgency : ℚ
  coercion : ℚ
  financial : ℚ
  upi_scam : ℚ
  combination_bonus : ℚ

/-- Details structure returned next to the intent score. -/
structure IntentDetails where
  pattern_counts : IntentCounts
  components : IntentComponents

/-- Modelled from the spec: `IntentScorer.calculate_intent_score` (absent
from src): sums the category components plus the combination bonus, capped
at 1, and exposes `pattern_counts` and `components` for explainability. -/
def calculate_intent_score (c : IntentCounts) : ℚ × IntentDetails :=
  let u := intent_component c.urgency
  let co := intent_component c.coercion
  let f := intent_component c.financial
  let up := intent_component c.upi_scam
  let b := combination_bonus c
  (min (u + co + f + up + b) 1, ⟨c, ⟨u, co, f, up, b⟩⟩)

/-! ## Concrete inputs used by counterexamples and witnesses -/

/-- Session-score view of the claim's "mean of the per-message scores taken
over messages whose sender is scammer". -/
def sessionMean (msgs : List SessionMessage) : ℚ :=
  ((scammerMessages msgs).map msgScore).sum / ((scammerMessages msgs).length : ℚ)

/-- Session-score view of the claim's diversity bonus
`min(0.02 × number_of_distinct_keywords, 0.2)`. -/
def sessionDiversity (msgs : List SessionMessage) : ℚ :=
  min ((((scammerMessages msgs).map msgKeywords).flatten.dedup.length : ℚ) * (1/50)) (1/5)

/-- Pattern-match data of the message text "urgent immediately today your
bank account blocked and suspended, police court action: verify confirm
update your otp pin password cvv with rbi, prize lottery, share your upi,
suspend account": 3 urgency patterns (urgent, immediately, today), 4 threat
patterns (block(ed), suspend(ed), police, court), 4 request patterns
(verif(y), confirm(ed), updat(e), shar(e)), 5 sensitive-data patterns (otp,
pin, password, cvv, upi), 2 impersonation patterns (bank, rbi), 2 money
patterns (prize, lotter(y)), 2 UPI-scam patterns (share...upi,
verify...upi) and 2 financial-coercion patterns (account...blocked,
block...account) match, saturating every family cap. -/
def saturatedMatches : RuleMatches where
  urgencyCount := 3
  threatCount := 4
  requestCount := 4
  sensitiveCount := 5
  impersonationCount := 2
  moneyCount := 2
  upiScamCount := 2
  financialCoercionCount := 2

/-- Freshly created session: all flags false, confidence 0, no artifacts. -/
def freshSession : SessionState := {}

/-- Detected session with high confidence and five messages exchanged. -/
def demoReadySession : SessionState where
  scamSuspected := true
  scamDetected := true
  scamConfidenceScore := 9/10
  totalMessages := 5

/-- One-message session from the counterparty with no pattern matches. -/
def demoSession : List SessionMessage :=
  [⟨"scammer", {}, .ok 0⟩]

/-! ## Helper lemmas -/

lemma famScore_nonneg (count : ℕ) (w cap : ℚ) (hw : 0 ≤ w) (hcap : 0 ≤ cap) :
    0 ≤ famScore count w cap := by
  unfold famScore
  split
  · exact le_min (mul_nonneg (by positivity) hw) hcap
  · exact le_refl 0

lemma ruleScore_nonneg (m : RuleMatches) : 0 ≤ ruleScore m := by
  unfold ruleScore
  have h1 := famScore_nonneg m.urgencyCount urgencyWeight urgencyCap
    (by norm_num [urgencyWeight]) (by norm_num [urgencyCap])
  have h2 := famScore_nonneg m.threatCount threatWeight threatCap
    (by norm_num [threatWeight]) (by norm_num [threatCap])
  have h3 := famScore_nonneg m.requestCount requestWeight requestCap
    (by norm_num [requestWeight]) (by norm_num [requestCap])
  have h4 := famScore_nonneg m.sensitiveCount sensitiveWeight sensitiveCap
    (by norm_num [sensitiveWeight]) (by norm_num [sensitiveCap])
  have h5 := famScore_nonneg m.impersonationCount impersonationWeight impersonationCap
    (by norm_num [impersonationWeight]) (by norm_num [impersonationCap])
  have h6 := famScore_nonneg m.moneyCount moneyWeight moneyCap
    (by norm_num [moneyWeight]) (by norm_num [moneyCap])
  have h7 := famScore_nonneg m.upiScamCount upiScamWeight upiScamCap
    (by norm_num [upiScamWeight]) (by norm_num [upiScamCap])
  have h8 := famScore_nonneg m.financialCoercionCount financialCoercionWeight
    financialCoercionCap (by norm_num [financialCoercionWeight])
    (by norm_num [financialCoercionCap])
  linarith

lemma famScore_eq_min (count : ℕ) (w cap : ℚ) (hcap : 0 ≤ cap) :
    famScore count w cap = min ((count : ℚ) * w) cap := by
  unfold famScore
  split
  · rfl
  · next h =>
      have hc : count = 0 := by omega
      subst hc
      simp only [Nat.cast_zero, zero_mul]
      exact (min_eq_left hcap).symm

lemma msgScore_nonneg (m : SessionMessage) : 0 ≤ msgScore m :=
  le_min (le_trans (ruleScore_nonneg m.ruleData) (le_max_left _ _)) (by norm_num)

/-! ## Claim theorems -/

/-- C2: the rule-based score that `ScamDetector.analyze_message` feeds into
its returned score is the sum over the eight pattern families of
`min(distinct_match_count × per_match_weight, family_cap)` with caps urgency
0.15, threat 0.25, request 0.15, sensitive-data 0.25, impersonation 0.10,
money 0.10, UPI-scam 0.20, financial-coercion 0.20, every per-match weight
lying in [0.05, 0.10]; the returned score is that total clipped to [0,1]
when the ML signal contributes nothing; and the returned evidence list is
the deduplicated union of the matched keyword strings. The embedding is a
pure function, matching the claim's absence of side effects. -/
theorem rule_scoring_matches_family_table (m : RuleMatches) (e : String)
    (ml : Except String ℚ) :
    ruleScore m
      = min ((m.urgencyCount : ℚ) * urgencyWeight) urgencyCap
        + min ((m.threatCount : ℚ) * threatWeight) threatCap
        + min ((m.requestCount : ℚ) * requestWeight) requestCap
        + min ((m.sensitiveCount : ℚ) * sensitiveWeight) sensitiveCap
        + min ((m.impersonationCount : ℚ) * impersonationWeight) impersonationCap
        + min ((m.moneyCount : ℚ) * moneyWeight) moneyCap
        + min ((m.upiScamCount : ℚ) * upiScamWeight) upiScamCap
        + min ((m.financialCoercionCount : ℚ) * financialCoercionWeight)
            financialCoercionCap
    ∧ (urgencyCap = 3/20 ∧ threatCap = 1/4 ∧ requestCap = 3/20
        ∧ sensitiveCap = 1/4 ∧ impersonationCap = 1/10 ∧ moneyCap = 1/10
        ∧ upiScamCap = 1/5 ∧ financialCoercionCap = 1/5)
    ∧ (1/20 ≤ urgencyWeight ∧ urgencyWeight ≤ 1/10)
    ∧ (1/20 ≤ threatWeight ∧ threatWeight ≤ 1/10)
    ∧ (1/20 ≤ requestWeight ∧ requestWeight ≤ 1/10)
    ∧ (1/20 ≤ sensitiveWeight ∧ sensitiveWeight ≤ 1/10)
    ∧ (1/20 ≤ impersonationWeight ∧ impersonationWeight ≤ 1/10)
    ∧ (1/20 ≤ moneyWeight ∧ moneyWeight ≤ 1/10)
    ∧ (1/20 ≤ upiScamWeight ∧ upiScamWeight ≤ 1/10)
    ∧ (1/20 ≤ financialCoercionWeight ∧ financialCoercionWeight ≤ 1/10)
    ∧ (analyzeMessage m (.error e)).1 = clip01 (ruleScore m)
    ∧ (analyzeMessage m ml).2.Nodup
    ∧ (∀ k, k ∈ (analyzeMessage m ml).2 ↔ k ∈ matchedKeywordList m) := by
  refine ⟨?_, by norm_num [urgencyCap, threatCap, requestCap, sensitiveCap,
      impersonationCap, moneyCap, upiScamCap, financialCoercionCap],
    by norm_num [urgencyWeight], by norm_num [threatWeight],
    by norm_num [requestWeight], by norm_num [sensitiveWeight],
    by norm_num [impersonationWeight], by norm_num [moneyWeight],
    by norm_num [upiScamWeight], by norm_num [financialCoercionWeight],
    rfl, List.nodup_dedup _, fun k => List.mem_dedup⟩
  unfold ruleScore
  rw [famScore_eq_min _ _ _ (by norm_num [urgencyCap]),
    famScore_eq_min _ _ _ (by norm_num [threatCap]),
    famScore_eq_min _ _ _ (by norm_num [requestCap]),
    famScore_eq_min _ _ _ (by norm_num [sensitiveCap]),
    famScore_eq_min _ _ _ (by norm_num [impersonationCap]),
    famScore_eq_min _ _ _ (by norm_num [moneyCap]),
    famScore_eq_min _ _ _ (by norm_num [upiScamCap]),
    famScore_eq_min _ _ _ (by norm_num [financialCoercionCap])]

/-- C5: whatever the underlying classifier call does, message analysis
returns a value: on any raised exception (modelled as `.error e`) the ML
score defaults to 0.0 and the returned result equals the one computed from
the rule signals alone, keywords untouched. -/
theorem classifier_failure_degrades_to_rules (m : RuleMatches) (e : String) :
    analyzeMessage m (.error e) = analyzeMessage m (.ok 0)
    ∧ (analyzeMessage m (.error e)).1 = min (ruleScore m) 1
    ∧ (analyzeMessage m (.error e)).2 = (matchedKeywordList m).dedup := by
  refine ⟨rfl, ?_, rfl⟩
  show min (max (ruleScore m) (mlScoreOf (.error e))) 1 = min (ruleScore m) 1
  rw [show mlScoreOf (Except.error e) = 0 from rfl,
    max_eq_left (ruleScore_nonneg m)]

/-- C10 counterexample: on a message whose text saturates every pattern
family (see `saturatedMatches`), the internal rule score is 1.4 while the
returned score is truncated to 1.0, so the returned score is NOT always at
least the rule score as the claim states. -/
theorem final_score_can_drop_below_rule_score :
    ruleScore saturatedMatches = 7/5
    ∧ (analyzeMessage saturatedMatches (.ok 0)).1 = 1
    ∧ ¬ ruleScore saturatedMatches ≤ (analyzeMessage saturatedMatches (.ok 0)).1 := by
  have hr : ruleScore saturatedMatches = 7/5 := by
    norm_num [ruleScore, famScore, saturatedMatches, min_def,
      urgencyWeight, urgencyCap, threatWeight, threatCap, requestWeight,
      requestCap, sensitiveWeight, sensitiveCap, impersonationWeight,
      impersonationCap, moneyWeight, moneyCap, upiScamWeight, upiScamCap,
      financialCoercionWeight, financialCoercionCap]
  have hs : (analyzeMessage saturatedMatches (.ok 0)).1 = 1 := by
    show min (max (ruleScore saturatedMatches) (mlScoreOf (.ok 0))) 1 = 1
    rw [hr]
    norm_num [mlScoreOf, min_def, max_def]
  exact ⟨hr, hs, by rw [hs, hr]; norm_num⟩

/-- C10 amended: `ScamDetector.analyze_message` returns
`min(max(rule_score, ml_score), 1.0)` — the two signals are combined by
maximum, not a weighted sum; the returned score is always at least the rule
score truncated to 1.0 (the raw rule score can exceed 1.0 and is then
clipped down); and the ML signal can raise but never lower the rule-based
verdict. -/
theorem final_score_is_clipped_max_of_signals (m : RuleMatches)
    (ml : Except String ℚ) (e : String) :
    (analyzeMessage m ml).1 = min (max (ruleScore m) (mlScoreOf ml)) 1
    ∧ min (ruleScore m) 1 ≤ (analyzeMessage m ml).1
    ∧ (analyzeMessage m (.error e)).1 ≤ (analyzeMessage m ml).1 := by
  refine ⟨rfl, ?_, ?_⟩
  · exact min_le_min (le_max_left _ _) le_rfl
  · show min (max (ruleScore m) (mlScoreOf (.error e))) 1 ≤ _
    rw [show mlScoreOf (Except.error e) = 0 from rfl,
      max_eq_left (ruleScore_nonneg m)]
    exact min_le_min (le_max_left _ _) le_rfl

lemma analyzeSession_score (msgs : List SessionMessage) :
    (analyzeSession msgs).1
      = min (((scammerMessages msgs).map msgScore).sum
          / ((max (scammerMessages msgs).length 1 : ℕ) : ℚ)
          + sessionDiversity msgs) 1 := rfl

lemma analyzeSession_suspected (msgs : List SessionMessage) :
    (analyzeSession msgs).2.1 = decide (3/10 ≤ (analyzeSession msgs).1) := rfl

lemma analyzeSession_confirmed (msgs : List SessionMessage) :
    (analyzeSession msgs).2.2.1
      = decide (51/100 ≤ (analyzeSession msgs).1
          ∧ 2 ≤ (scammerMessages msgs).length) := rfl

/-- C3: over any session with at least one counterparty ("scammer") message,
`ScamDetector.analyze_session` scores the session as the mean of the
per-message scores of the scammer messages plus a diversity bonus of
`min(0.02 × distinct_keyword_count, 0.2)` clipped to [0,1]; the session is
suspected iff that score is ≥ 0.3 and confirmed iff the score is ≥ 0.51 and
at least 2 scammer messages were observed — a single-message session is
never confirmed. -/
theorem analyze_session_mean_and_gates (msgs : List SessionMessage)
    (h : 1 ≤ (scammerMessages msgs).length) :
    (analyzeSession msgs).1 = min (sessionMean msgs + sessionDiversity msgs) 1
    ∧ 0 ≤ (analyzeSession msgs).1
    ∧ (analyzeSession msgs).1 ≤ 1
    ∧ ((analyzeSession msgs).2.1 = true ↔ 3/10 ≤ (analyzeSession msgs).1)
    ∧ ((analyzeSession msgs).2.2.1 = true ↔
        51/100 ≤ (analyzeSession msgs).1 ∧ 2 ≤ (scammerMessages msgs).length)
    ∧ ((scammerMessages msgs).length = 1 → (analyzeSession msgs).2.2.1 = false) := by
  have hmax : max (scammerMessages msgs).length 1 = (scammerMessages msgs).length :=
    Nat.max_eq_left h
  have hscore : (analyzeSession msgs).1
      = min (sessionMean msgs + sessionDiversity msgs) 1 := by
    rw [analyzeSession_score, hmax]
    rfl
  have hS : 0 ≤ ((scammerMessages msgs).map msgScore).sum := by
    apply List.sum_nonneg
    intro x hx
    obtain ⟨m, _, rfl⟩ := List.mem_map.mp hx
    exact msgScore_nonneg m
  have hmean : 0 ≤ sessionMean msgs := div_nonneg hS (by positivity)
  have hdiv : 0 ≤ sessionDiversity msgs := le_min (by positivity) (by norm_num)
  refine ⟨hscore, ?_, ?_, ?_, ?_, ?_⟩
  · rw [hscore]
    exact le_min (by linarith) (by norm_num)
  · rw [hscore]
    exact min_le_right _ _
  · rw [analyzeSession_suspected]
    simp
  · rw [analyzeSession_confirmed]
    simp
  · intro h1
    rw [analyzeSession_confirmed]
    simp [h1]

/-- C3 witness: a one-scammer-message session instantiating
`analyze_session_mean_and_gates`. -/
theorem analyze_session_mean_and_gates_witness :
    1 ≤ (scammerMessages demoSession).length
    ∧ ((analyzeSession demoSession).1
        = min (sessionMean demoSession + sessionDiversity demoSession) 1
      ∧ 0 ≤ (analyzeSession demoSession).1
      ∧ (analyzeSession demoSession).1 ≤ 1
      ∧ ((analyzeSession demoSession).2.1 = true ↔ 3/10 ≤ (analyzeSession demoSession).1)
      ∧ ((analyzeSession demoSession).2.2.1 = true ↔
          51/100 ≤ (analyzeSession demoSession).1 ∧ 2 ≤ (scammerMessages demoSession).length)
      ∧ ((scammerMessages demoSession).length = 1 → (analyzeSession demoSession).2.2.1 = false)) :=
  have hlen : 1 ≤ (scammerMessages demoSession).length := by decide
  ⟨hlen, analyze_session_mean_and_gates demoSession hlen⟩

/-- C4 counterexample: calling `update_scam_status` with `suspected=False,
detected=True` on a fresh session leaves `scamSuspected` false while setting
`scamDetected` true, so the §3 invariant `scamDetected ⇒ scamSuspected` is
not preserved for every combination of arguments as the claim states. -/
theorem update_scam_status_can_break_detected_implies_suspected :
    (update_scam_status freshSession false true 0).scamDetected = true
    ∧ (update_scam_status freshSession false true 0).scamSuspected = false :=
  ⟨rfl, rfl⟩

/-- C4 amended: `update_scam_status` keeps both flags monotone (never
true→false) and never decreases `scamConfidenceScore` (it becomes the max of
the old value and the supplied confidence); `scamDetected ⇒ scamSuspected`
is preserved provided it held before the update and the arguments themselves
satisfy `detected → suspected` (as they do at every call site, where
detection implies suspicion). -/
theorem update_scam_status_invariants (s : SessionState) (su de : Bool) (c : ℚ)
    (hinv : s.scamDetected = true → s.scamSuspected = true)
    (hargs : de = true → su = true) :
    (s.scamSuspected = true → (update_scam_status s su de c).scamSuspected = true)
    ∧ (s.scamDetected = true → (update_scam_status s su de c).scamDetected = true)
    ∧ (update_scam_status s su de c).scamConfidenceScore = max c s.scamConfidenceScore
    ∧ s.scamConfidenceScore ≤ (update_scam_status s su de c).scamConfidenceScore
    ∧ ((update_scam_status s su de c).scamDetected = true →
        (update_scam_status s su de c).scamSuspected = true) := by
  refine ⟨?_, ?_, rfl, le_max_right _ _, ?_⟩
  · intro h1
    simp [update_scam_status, h1]
  · intro h1
    simp [update_scam_status, h1]
  · intro h1
    cases su <;> cases de <;> simp_all [update_scam_status]

/-- C4 witness: the amended invariants instantiated on a fresh session with
`suspected=True, detected=True, confidence=0.5`. -/
theorem update_scam_status_invariants_witness :
    (freshSession.scamSuspected = true →
      (update_scam_status freshSession true true (1/2)).scamSuspected = true)
    ∧ (freshSession.scamDetected = true →
      (update_scam_status freshSession true true (1/2)).scamDetected = true)
    ∧ (update_scam_status freshSession true true (1/2)).scamConfidenceScore
        = max (1/2) freshSession.scamConfidenceScore
    ∧ freshSession.scamConfidenceScore
        ≤ (update_scam_status freshSession true true (1/2)).scamConfidenceScore
    ∧ ((update_scam_status freshSession true true (1/2)).scamDetected = true →
        (update_scam_status freshSession true true (1/2)).scamSuspected = true) :=
  update_scam_status_invariants freshSession true true (1/2)
    (fun h => absurd h (by decide)) (fun h => h)

/-- C7: union-merging the intelligence extracted from a message into a
session's running `ExtractedIntelligence` twice yields exactly the same
artifact sets as merging it once, both at the `merge` level and through
`SessionService.update_intelligence`. -/
theorem intelligence_merge_idempotent (s m : ExtractedIntelligence)
    (sess : SessionState) :
    (s.merge m).merge m = s.merge m
    ∧ update_intelligence (update_intelligence sess m) m
        = update_intelligence sess m := by
  have hu : ∀ a b : Finset String, (a ∪ b) ∪ b = a ∪ b := fun a b => by
    rw [Finset.union_assoc, Finset.union_self]
  have h1 : ∀ x y : ExtractedIntelligence, (x.merge y).merge y = x.merge y := by
    intro x y
    cases x
    cases y
    simp [ExtractedIntelligence.merge, hu]
  exact ⟨h1 s m, by simp [update_intelligence, h1 sess.extractedIntelligence m]⟩

/-- C9: `should_send_callback` returns true exactly when the callback was
not already sent, the scam is confirmed, the message count has reached
`min_messages_for_callback` (default 3), and either some intelligence was
extracted or the confidence is ≥ 0.8; in particular it returns false
whenever the message count is below the minimum, even with
`scamDetected = true`. -/
theorem should_send_callback_iff (settings : Settings) (s : SessionState) :
    (should_send_callback settings s = true ↔
      s.callbackSent = false ∧ s.scamDetected = true
        ∧ settings.min_messages_for_callback ≤ s.totalMessages
        ∧ (s.extractedIntelligence.is_empty = false
            ∨ 4/5 ≤ s.scamConfidenceScore))
    ∧ (s.totalMessages < settings.min_messages_for_callback →
        should_send_callback settings s = false)
    ∧ ({} : Settings).min_messages_for_callback = 3 := by
  refine ⟨?_, ?_, rfl⟩
  · unfold should_send_callback
    split_ifs with h1 h2 h3 h4 h5 <;> simp_all [not_lt, not_le]
  · intro hm
    unfold should_send_callback
    split_ifs <;> rfl

/-- C9 witness: a detected, high-confidence, five-message session is
eligible under the default settings. -/
theorem should_send_callback_iff_witness :
    should_send_callback {} demoReadySession = true :=
  (should_send_callback_iff {} demoReadySession).1.mpr
    ⟨rfl, rfl, by decide, Or.inr (by norm_num [demoReadySession])⟩

lemma filterBankAccountsLoop_mem (v : String) (ms : List String) :
    ∀ acc, v ∈ filterBankAccountsLoop acc ms ↔
      v ∈ acc ∨ ∃ m ∈ ms, validAccountChars (stripSeparators m) = true
        ∧ v = maskAccount (stripSeparators m) := by
  induction ms with
  | nil =>
      intro acc
      simp [filterBankAccountsLoop]
  | cons m ms ih =>
      intro acc
      simp only [filterBankAccountsLoop]
      split_ifs with hv hmem
      · rw [ih]
        constructor
        · rintro (h | ⟨m', hm', hp⟩)
          · exact Or.inl h
          · exact Or.inr ⟨m', List.mem_cons_of_mem _ hm', hp⟩
        · rintro (h | ⟨m', hm', hval, hmask⟩)
          · exact Or.inl h
          · rcases List.mem_cons.mp hm' with h' | h'
            · exact Or.inl (by rw [hmask, h']; exact hmem)
            · exact Or.inr ⟨m', h', hval, hmask⟩
      · rw [ih]
        constructor
        · rintro (h | ⟨m', hm', hp⟩)
          · rcases List.mem_append.mp h with h' | h'
            · exact Or.inl h'
            · exact Or.inr ⟨m, List.mem_cons_self m ms, hv, List.mem_singleton.mp h'⟩
          · exact Or.inr ⟨m', List.mem_cons_of_mem _ hm', hp⟩
        · rintro (h | ⟨m', hm', hval, hmask⟩)
          · exact Or.inl (List.mem_append.mpr (Or.inl h))
          · rcases List.mem_cons.mp hm' with h' | h'
            · refine Or.inl (List.mem_append.mpr (Or.inr ?_))
              rw [hmask, h']
              exact List.mem_singleton.mpr rfl
            · exact Or.inr ⟨m', h', hval, hmask⟩
      · rw [ih]
        constructor
        · rintro (h | ⟨m', hm', hp⟩)
          · exact Or.inl h
          · exact Or.inr ⟨m', List.mem_cons_of_mem _ hm', hp⟩
        · rintro (h | ⟨m', hm', hval, hmask⟩)
          · exact Or.inl h
          · rcases List.mem_cons.mp hm' with h' | h'
            · exact absurd (h' ▸ hval) hv
            · exact Or.inr ⟨m', h', hval, hmask⟩

lemma maskAccount_digits (clean : List Char) (h : clean.all Char.isDigit = true) :
    (maskAccount clean).data.filter Char.isDigit
      = clean.drop (clean.length - 4) := by
  show ("XXXX-XXXX-".data ++ clean.drop (clean.length - 4)).filter Char.isDigit = _
  rw [List.filter_append]
  have h1 : "XXXX-XXXX-".data.filter Char.isDigit = [] := by decide
  rw [h1, List.nil_append]
  apply List.filter_eq_self.mpr
  intro c hc
  exact List.all_eq_true.mp h c (List.mem_of_mem_drop hc)

lemma maskAccount_digit_len (clean : List Char) (h9 : 9 ≤ clean.length)
    (h : clean.all Char.isDigit = true) :
    ((maskAccount clean).data.filter Char.isDigit).length = 4 := by
  rw [maskAccount_digits clean h, List.length_drop]
  omega

/-- C6: `_filter_bank_accounts` keeps a raw candidate exactly when, after
stripping separators, it consists of 9 to 18 digits; every kept value is
stored exactly as "XXXX-XXXX-" followed by the candidate's last 4 digits,
and the digit characters of any stored masked string are exactly those last
4 — no stored value retains more than the last 4 original digits. -/
theorem bank_account_filter_masks (ms : List String) (v : String) :
    (v ∈ filter_bank_accounts ms ↔
      ∃ m ∈ ms, (9 ≤ (stripSeparators m).length ∧ (stripSeparators m).length ≤ 18
          ∧ (stripSeparators m).all Char.isDigit = true)
        ∧ v = maskAccount (stripSeparators m))
    ∧ (v ∈ filter_bank_accounts ms →
        ∃ m ∈ ms, v.data.filter Char.isDigit
            = (stripSeparators m).drop ((stripSeparators m).length - 4)
          ∧ (v.data.filter Char.isDigit).length = 4) := by
  have hval : ∀ l : List Char, validAccountChars l = true ↔
      (9 ≤ l.length ∧ l.length ≤ 18 ∧ l.all Char.isDigit = true) := by
    intro l
    simp [validAccountChars, Bool.and_eq_true, decide_eq_true_eq, and_assoc]
  have hmem : ∀ w, w ∈ filter_bank_accounts ms ↔
      ∃ m ∈ ms, validAccountChars (stripSeparators m) = true
        ∧ w = maskAccount (stripSeparators m) := by
    intro w
    unfold filter_bank_accounts
    rw [filterBankAccountsLoop_mem]
    simp
  constructor
  · rw [hmem v]
    constructor
    · rintro ⟨m, hm, hv2, hmask⟩
      exact ⟨m, hm, (hval _).mp hv2, hmask⟩
    · rintro ⟨m, hm, hv2, hmask⟩
      exact ⟨m, hm, (hval _).mpr hv2, hmask⟩
  · intro hv2
    obtain ⟨m, hm, hvalid, hmask⟩ := (hmem v).mp hv2
    obtain ⟨h9, h18, hdig⟩ := (hval _).mp hvalid
    refine ⟨m, hm, ?_, ?_⟩
    · rw [hmask]
      exact maskAccount_digits _ hdig
    · rw [hmask]
      exact maskAccount_digit_len _ h9 hdig

/-- C6 witness: a 16-digit candidate written with spaces is kept and stored
as "XXXX-XXXX-3456", which retains exactly 4 digit characters. -/
theorem bank_account_filter_masks_witness :
    "XXXX-XXXX-3456" ∈ filter_bank_accounts ["1234 5678 9012 3456"]
    ∧ ("XXXX-XXXX-3456".data.filter Char.isDigit).length = 4 := by
  have h := bank_account_filter_masks ["1234 5678 9012 3456"] "XXXX-XXXX-3456"
  have hm : "XXXX-XXXX-3456" ∈ filter_bank_accounts ["1234 5678 9012 3456"] :=
    h.1.mpr ⟨"1234 5678 9012 3456", by decide, by decide, by decide⟩
  obtain ⟨m, _, _, hlen⟩ := h.2 hm
  exact ⟨hm, hlen⟩

lemma confidence_level_eq_high (c : ℚ) :
    confidence_level c = .high ↔ 3/4 ≤ c := by
  unfold confidence_level
  split_ifs with h1 h2
  · exact ⟨fun _ => h1, fun _ => rfl⟩
  · exact ⟨fun h => absurd h (by decide), fun h => absurd h h1⟩
  · exact ⟨fun h => absurd h (by decide), fun h => absurd h h1⟩

lemma confidence_level_eq_medium (c : ℚ) :
    confidence_level c = .medium ↔ 9/20 ≤ c ∧ c < 3/4 := by
  unfold confidence_level
  split_ifs with h1 h2
  · exact ⟨fun h => absurd h (by decide), fun ⟨_, h3⟩ => absurd h1 (not_le.mpr h3)⟩
  · exact ⟨fun _ => ⟨h2, not_le.mp h1⟩, fun _ => rfl⟩
  · exact ⟨fun h => absurd h (by decide), fun ⟨h3, _⟩ => absurd h3 h2⟩

lemma confidence_level_eq_low (c : ℚ) :
    confidence_level c = .low ↔ c < 9/20 := by
  unfold confidence_level
  split_ifs with h1 h2
  · refine ⟨fun h => absurd h (by decide), fun h3 => absurd h1 (not_le.mpr ?_)⟩
    linarith
  · exact ⟨fun h => absurd h (by decide), fun h3 => absurd h2 (not_le.mpr h3)⟩
  · exact ⟨fun _ => not_le.mp h2, fun _ => rfl⟩

lemma risk_level_eq_safe (x : ℚ) :
    risk_level x = .safe ↔ x < 7/20 := by
  unfold risk_level
  split_ifs with h1 h2
  · exact ⟨fun _ => h1, fun _ => rfl⟩
  · exact ⟨fun h => absurd h (by decide), fun h => absurd h h1⟩
  · exact ⟨fun h => absurd h (by decide), fun h => absurd h h1⟩

lemma risk_level_eq_suspicious (x : ℚ) :
    risk_level x = .suspicious ↔ 7/20 ≤ x ∧ x < 3/5 := by
  unfold risk_level
  split_ifs with h1 h2
  · exact ⟨fun h => absurd h (by decide), fun ⟨h3, _⟩ => absurd h1 (not_lt.mpr h3)⟩
  · exact ⟨fun _ => ⟨not_lt.mp h1, h2⟩, fun _ => rfl⟩
  · exact ⟨fun h => absurd h (by decide), fun ⟨_, h3⟩ => absurd h3 h2⟩

lemma risk_level_eq_scam (x : ℚ) :
    risk_level x = .scam ↔ 3/5 ≤ x := by
  unfold risk_level
  split_ifs with h1 h2
  · refine ⟨fun h => absurd h (by decide), fun h3 => absurd h1 (not_lt.mpr ?_)⟩
    linarith
  · exact ⟨fun h => absurd h (by decide), fun h3 => absurd h2 (not_lt.mpr h3)⟩
  · exact ⟨fun _ => not_lt.mp h2, fun _ => rfl⟩

/-- C1: with an externally supplied classifier prediction, the aggregator
derives the `ConfidenceLevel` from the confidence magnitude (≥ 0.75 HIGH,
0.45–0.75 MEDIUM, < 0.45 LOW); under HIGH confidence the classifier signal
weight is ≥ 0.8, under LOW confidence the rules weight is ≥ 0.3 and the
intent weight is ≥ 0.25; the aggregate score is the weighted sum of the
three signal scores clipped to [0,1]; and the returned `RiskLevel` is SAFE
iff the score is < 0.35, SUSPICIOUS iff 0.35 ≤ score < 0.6, and SCAM iff
score ≥ 0.6. -/
theorem risk_aggregator_confidence_policy (rules intent : ℚ)
    (pred : ClassifierPrediction) :
    ((RiskAggregator.analyze_message rules intent pred).2.2.confidence_level
        = ConfidenceLevel.high ↔ 3/4 ≤ pred.confidence)
    ∧ ((RiskAggregator.analyze_message rules intent pred).2.2.confidence_level
        = ConfidenceLevel.medium ↔ 9/20 ≤ pred.confidence ∧ pred.confidence < 3/4)
    ∧ ((RiskAggregator.analyze_message rules intent pred).2.2.confidence_level
        = ConfidenceLevel.low ↔ pred.confidence < 9/20)
    ∧ ((RiskAggregator.analyze_message rules intent pred).2.2.confidence_level
        = ConfidenceLevel.high →
        4/5 ≤ (RiskAggregator.analyze_message rules intent pred).2.2.mlSignal.weight)
    ∧ ((RiskAggregator.analyze_message rules intent pred).2.2.confidence_level
        = ConfidenceLevel.low →
        3/10 ≤ (RiskAggregator.analyze_message rules intent pred).2.2.rulesSignal.weight
          ∧ 1/4 ≤ (RiskAggregator.analyze_message rules intent pred).2.2.intentSignal.weight)
    ∧ (RiskAggregator.analyze_message rules intent pred).2.1
        = clip01
            ((RiskAggregator.analyze_message rules intent pred).2.2.mlSignal.weight
                * pred.confidence
              + (RiskAggregator.analyze_message rules intent pred).2.2.rulesSignal.weight
                * rules
              + (RiskAggregator.analyze_message rules intent pred).2.2.intentSignal.weight
                * intent)
    ∧ ((RiskAggregator.analyze_message rules intent pred).1 = RiskLevel.safe ↔
        (RiskAggregator.analyze_message rules intent pred).2.1 < 7/20)
    ∧ ((RiskAggregator.analyze_message rules intent pred).1 = RiskLevel.suspicious ↔
        7/20 ≤ (RiskAggregator.analyze_message rules intent pred).2.1
          ∧ (RiskAggregator.analyze_message rules intent pred).2.1 < 3/5)
    ∧ ((RiskAggregator.analyze_message rules intent pred).1 = RiskLevel.scam ↔
        3/5 ≤ (RiskAggregator.analyze_message rules intent pred).2.1) := by
  refine ⟨confidence_level_eq_high _, confidence_level_eq_medium _,
    confidence_level_eq_low _, ?_, ?_, rfl, risk_level_eq_safe _,
    risk_level_eq_suspicious _, risk_level_eq_scam _⟩
  · intro h
    have h' : confidence_level pred.confidence = .high := h
    show 4/5 ≤ (weightsFor (confidence_level pred.confidence)).ml
    rw [h']
    norm_num [weightsFor]
  · intro h
    have h' : confidence_level pred.confidence = .low := h
    constructor
    · show 3/10 ≤ (weightsFor (confidence_level pred.confidence)).rules
      rw [h']
      norm_num [weightsFor]
    · show 1/4 ≤ (weightsFor (confidence_level pred.confidence)).intent
      rw [h']
      norm_num [weightsFor]

/-- C1 witness: a prediction with confidence 0.85 is HIGH and gives the
classifier signal weight at least 0.8. -/
theorem risk_aggregator_confidence_policy_witness :
    (RiskAggregator.analyze_message (1/2) (1/2)
        ⟨"possible_scam", 17/20⟩).2.2.confidence_level = ConfidenceLevel.high
    ∧ 4/5 ≤ (RiskAggregator.analyze_message (1/2) (1/2)
        ⟨"possible_scam", 17/20⟩).2.2.mlSignal.weight := by
  have h := risk_aggregator_confidence_policy (1/2) (1/2) ⟨"possible_scam", 17/20⟩
  have hh : (RiskAggregator.analyze_message (1/2) (1/2)
      ⟨"possible_scam", 17/20⟩).2.2.confidence_level = ConfidenceLevel.high :=
    h.1.mpr (by norm_num)
  exact ⟨hh, h.2.2.2.1 hh⟩

/-- C8: whenever two or more intent categories fire together, the intent
scorer applies a strictly positive combination bonus and the combined score
strictly exceeds the maximum individual component score; the score lies in
[0,1] and the returned details expose the per-category pattern counts and a
components map that includes the combination bonus. -/
theorem intent_combination_bonus_dominates (c : IntentCounts)
    (h : 2 ≤ activeCategories c) :
    0 < combination_bonus c
    ∧ max (max (max (intent_component c.urgency) (intent_component c.coercion))
          (intent_component c.financial)) (intent_component c.upi_scam)
        < (calculate_intent_score c).1
    ∧ 0 ≤ (calculate_intent_score c).1
    ∧ (calculate_intent_score c).1 ≤ 1
    ∧ (calculate_intent_score c).2.pattern_counts = c
    ∧ (calculate_intent_score c).2.components.combination_bonus = combination_bonus c
    ∧ (calculate_intent_score c).2.components.urgency = intent_component c.urgency
    ∧ (calculate_intent_score c).2.components.coercion = intent_component c.coercion
    ∧ (calculate_intent_score c).2.components.financial = intent_component c.financial
    ∧ (calculate_intent_score c).2.components.upi_scam = intent_component c.upi_scam := by
  have hnn : ∀ n : ℕ, 0 ≤ intent_component n := fun n =>
    le_min (by positivity) (by norm_num)
  have hle : ∀ n : ℕ, intent_component n ≤ 3/10 := fun n => min_le_right _ _
  have hbonus : 1/10 ≤ combination_bonus c := by
    unfold combination_bonus
    rw [if_pos h]
    have h1 : 1 ≤ activeCategories c - 1 := by omega
    have h2 : (1 : ℚ) ≤ ((activeCategories c - 1 : ℕ) : ℚ) := by exact_mod_cast h1
    linarith
  have hscore : (calculate_intent_score c).1
      = min (intent_component c.urgency + intent_component c.coercion
          + intent_component c.financial + intent_component c.upi_scam
          + combination_bonus c) 1 := rfl
  have hu := hnn c.urgency
  have hco := hnn c.coercion
  have hf := hnn c.financial
  have hup := hnn c.upi_scam
  have hMsum : max (max (max (intent_component c.urgency) (intent_component c.coercion))
        (intent_component c.financial)) (intent_component c.upi_scam)
      ≤ intent_component c.urgency + intent_component c.coercion
        + intent_component c.financial + intent_component c.upi_scam := by
    apply max_le (max_le (max_le (by linarith) (by linarith)) (by linarith)) (by linarith)
  have hMle : max (max (max (intent_component c.urgency) (intent_component c.coercion))
        (intent_component c.financial)) (intent_component c.upi_scam) ≤ 3/10 :=
    max_le (max_le (max_le (hle _) (hle _)) (hle _)) (hle _)
  refine ⟨by linarith, ?_, ?_, ?_, rfl, rfl, rfl, rfl, rfl, rfl⟩
  · rw [hscore]
    exact lt_min (by linarith) (by linarith)
  · rw [hscore]
    exact le_min (by linarith) (by norm_num)
  · rw [hscore]
    exact min_le_right _ _

/-- C8 witness: urgency and coercion firing together give a positive
combination bonus. -/
theorem intent_combination_bonus_dominates_witness :
    2 ≤ activeCategories ⟨1, 1, 0, 0⟩ ∧ 0 < combination_bonus ⟨1, 1, 0, 0⟩ :=
  have ha : 2 ≤ activeCategories ⟨1, 1, 0, 0⟩ := by decide
  ⟨ha, (intent_combination_bonus_dominates ⟨1, 1, 0, 0⟩ ha).1⟩

end ScamNest
